import Mathlib

/-!
Verification of the scheduling/execution/extraction core of the
github-login repository, following a shallow embedding of
`backend/utils/task_scheduler.py`, `backend/utils/task_executor.py` and
`backend/utils/balance_extractor.py`.

Times are modelled as integer UTC seconds; Python's `set` of running task
ids is modelled as a `Finset ℕ`; monetary values as `ℚ`; fallible Python
operations are made explicit either as an `Except` result or as an
environment recording which operation raises.
-/

namespace GithubLogin

/-! ## Character/string utilities shared by several embedded functions.

Python string operations (`in`, `.lower()`, `.strip()`, slicing) are
modelled over `List Char`.  `str.lower` is modelled on ASCII letters only:
every string the embedded code compares consists of ASCII and CJK
characters, on which the two agree.
-/

/-- ASCII lower-casing of one character (the cased alphabet of all strings
compared by the embedded code is ASCII). -/
def lcChar (c : Char) : Char :=
  if 'A' ≤ c ∧ c ≤ 'Z' then Char.ofNat (c.toNat + 32) else c

/-- Python `s.lower()` on the character list. -/
def lowerCL (cs : List Char) : List Char := cs.map lcChar

/-- Python `s.lower()`. -/
def lowerStr (s : String) : String := ⟨lowerCL s.data⟩

/-- List-of-characters prefix test (used to implement substring search). -/
def startsWithCL : List Char → List Char → Bool
  | [], _ => true
  | _ :: _, [] => false
  | a :: as, b :: bs => a == b && startsWithCL as bs

/-- `needle` occurs as a contiguous substring of the second list
(Python's `needle in hay`). -/
def containsSubCL (needle : List Char) : List Char → Bool
  | [] => needle.isEmpty
  | c :: rest => startsWithCL needle (c :: rest) || containsSubCL needle rest

/-- Python `needle in hay` over strings. -/
def strContains (hay needle : String) : Bool :=
  containsSubCL needle.data hay.data

/-- Python `\s` / `str.strip` whitespace (ASCII whitespace; the embedded
inputs contain no exotic Unicode spaces). -/
def isSpaceChar (c : Char) : Bool :=
  c == ' ' || c == '\t' || c == '\n' || c == '\r' || c == '\x0b' || c == '\x0c'

/-- Python `s.strip()` over a character list. -/
def stripCL (cs : List Char) : List Char :=
  ((cs.dropWhile isSpaceChar).reverse.dropWhile isSpaceChar).reverse

/-- Python `s.strip()`. -/
def stripStr (s : String) : String := ⟨stripCL s.data⟩

/-! ## Cron Evaluator due-check and scheduler pending query
(`backend/utils/task_scheduler.py`). -/

/-- `is_time_to_run` (task_scheduler.py lines 48–63): computes
`time_diff = now - task_next_run_time` in seconds and returns
`-tolerance_seconds <= time_diff <= tolerance_seconds * 2`.
The current UTC time, read inside the Python function, is the explicit
first argument here. -/
def is_time_to_run (now task_next_run_time : ℤ) (tolerance_seconds : ℤ) : Bool :=
  let time_diff := now - task_next_run_time
  decide (-tolerance_seconds ≤ time_diff) && decide (time_diff ≤ tolerance_seconds * 2)

/-- The fields of a `ScheduledTask` row read by
`TaskScheduler.get_pending_tasks`. -/
structure SchedTask where
  id : ℕ
  is_active : Bool
  next_run_time : ℤ
  deriving DecidableEq, Repr

/-- `TaskScheduler.get_pending_tasks` (task_scheduler.py lines 174–201):
the DB query keeps active tasks with `next_run_time <= now + tolerance`,
then the list comprehension drops tasks whose id is in `running_tasks`
and re-checks `is_time_to_run`.  `running` is the scheduler's
`running_tasks` set at query time. -/
def get_pending_tasks (running : Finset ℕ) (tasks : List SchedTask)
    (now : ℤ) (tolerance_seconds : ℤ) : List SchedTask :=
  let dbTasks := tasks.filter fun t =>
    t.is_active && decide (t.next_run_time ≤ now + tolerance_seconds)
  dbTasks.filter fun t =>
    !(decide (t.id ∈ running)) && is_time_to_run now t.next_run_time tolerance_seconds

/-! ## Retry wrapper (`backend/utils/task_executor.py` lines 422–545). -/

/-- The non-retryable error substrings of `should_retry_oauth_error`
(task_executor.py lines 512–519). -/
def nonRetryableErrors : List String :=
  ["未找到GitHub账户",
   "GitHub登录失败，仍在登录页面",
   "未找到GitHub用户名输入框",
   "未找到GitHub密码输入框",
   "未找到2FA验证码输入框",
   "未找到GitHub OAuth登录选项"]

/-- The retryable error substrings of `should_retry_oauth_error`
(task_executor.py lines 528–538). -/
def retryableErrors : List String :=
  ["网络", "超时", "timeout", "connection", "webdriver", "异常",
   "OAuth窗口未打开", "OAuth重定向监控失败", "OAuth流程停留"]

/-- `should_retry_oauth_error` (task_executor.py lines 507–545): lower-cases
the message, returns false if any non-retryable entry (lower-cased) is a
substring, then true if any retryable entry is a substring, else false. -/
def should_retry_oauth_error (error_message : String) : Bool :=
  let error_lower := lowerStr error_message
  if nonRetryableErrors.any fun e => strContains error_lower (lowerStr e) then
    false
  else if retryableErrors.any fun e => strContains error_lower (lowerStr e) then
    true
  else
    false

/-- `determine_error_type` (task_executor.py lines 487–504). -/
def determine_error_type (error_message : String) : String :=
  let m := lowerStr error_message
  if strContains m "2fa" || strContains m "两个因子" || strContains m "验证码" then
    "2fa_failed"
  else if strContains m "登录" || strContains m "login" then
    "login_failed"
  else if strContains m "网络" || strContains m "network" || strContains m "timeout" then
    "network_error"
  else if strContains m "未找到" || strContains m "not found" then
    "ui_element_missing"
  else if strContains m "webdriver" || strContains m "browser" then
    "browser_error"
  else
    "unknown_error"

/-- The backoff before retry attempt `attempt` (task_executor.py line 443:
`await asyncio.sleep(5 + attempt * 2)`), executed whenever `attempt > 0`. -/
def sleepDuration (attempt : ℕ) : ℕ := 5 + attempt * 2

/-- Outcome of one call of the underlying browser-automation attempt
(`execute_github_oauth_with_browser_simulator`): a returned success, a
returned failure message, or a raised exception message. -/
inductive AttemptOutcome where
  | success (message : String)
  | failure (message : String)
  | exc (message : String)
  deriving DecidableEq, Repr

/-- What `execute_oauth_with_retry` returns together with the attempts it
actually made and the backoff sleeps it performed. -/
structure RetryTrace where
  attempts : ℕ
  sleeps : List ℕ
  succeeded : Bool
  message : String
  /-- the `retry_count` entry of the returned session/failure data -/
  retryCount : ℕ
  /-- the `error_type` entry of the returned data -/
  errorType : Option String
  deriving DecidableEq, Repr

/-- The failure return of `execute_oauth_with_retry` (task_executor.py
lines 477–484): message `重试{max_retries}次后仍失败: {last_error}`,
`retry_count = max_retries`, `error_type = determine_error_type(last_error or "")`. -/
def retryFinalFailure (max_retries attemptsMade : ℕ) (sleeps : List ℕ)
    (last_error : Option String) : RetryTrace :=
  { attempts := attemptsMade
    sleeps := sleeps
    succeeded := false
    message := "重试" ++ toString max_retries ++ "次后仍失败: " ++ last_error.getD "None"
    retryCount := max_retries
    errorType := some (determine_error_type (last_error.getD "")) }

/-- The `for attempt in range(max_retries)` loop of
`execute_oauth_with_retry` (task_executor.py lines 435–475), with `fuel`
the number of loop iterations still available (`max_retries - attempt`).
Each executed attempt with `attempt > 0` is preceded by a sleep of
`sleepDuration attempt`; a returned success exits with
`retry_count = attempt`, `error_type = None`; a returned failure breaks
when non-retryable or on the last iteration; a raised exception breaks
only on the last iteration. -/
def retryLoopAux (outcome : ℕ → AttemptOutcome) (max_retries : ℕ) :
    ℕ → ℕ → Option String → List ℕ → RetryTrace
  | 0, attempt, last_error, sleeps =>
      retryFinalFailure max_retries attempt sleeps last_error
  | fuel + 1, attempt, _last_error, sleeps =>
      let sleeps' := if attempt > 0 then sleeps ++ [sleepDuration attempt] else sleeps
      match outcome attempt with
      | .success msg =>
          { attempts := attempt + 1, sleeps := sleeps', succeeded := true,
            message := msg, retryCount := attempt, errorType := none }
      | .failure msg =>
          if should_retry_oauth_error msg = false ∨ attempt = max_retries - 1 then
            retryFinalFailure max_retries (attempt + 1) sleeps' (some msg)
          else
            retryLoopAux outcome max_retries fuel (attempt + 1) (some msg) sleeps'
      | .exc msg =>
          if attempt = max_retries - 1 then
            retryFinalFailure max_retries (attempt + 1) sleeps' (some msg)
          else
            retryLoopAux outcome max_retries fuel (attempt + 1) (some msg) sleeps'

/-- `execute_oauth_with_retry` (task_executor.py lines 422–484):
`max_retries = max(1, task_params.retry_count)`, then the attempt loop. -/
def execute_oauth_with_retry (outcome : ℕ → AttemptOutcome) (retry_count_param : ℕ) :
    RetryTrace :=
  let max_retries := max 1 retry_count_param
  retryLoopAux outcome max_retries max_retries 0 none []

/-! ## Execution Coordinator (`backend/utils/task_executor.py` lines 20–343).

`execute_task` is embedded as a function of an environment that records,
for each fallible operation on its path (the ExecutionLog-creation commit,
the per-kind dispatch, the `calculate_next_run_time` call, the
result-recording commit, and the exception handler's own commit), whether
that operation raises and with what message.  The current UTC time and the
scheduler's `running_tasks` set are explicit arguments. -/

/-- The mutable `ScheduledTask` fields touched by `execute_task`. -/
structure TaskState where
  id : ℕ
  task_type : String
  run_count : ℕ
  success_count : ℕ
  error_count : ℕ
  last_run_time : Option ℤ
  last_result : String
  next_run_time : ℤ
  deriving DecidableEq, Repr

/-- The statistics update of `execute_task` on the normal path
(task_executor.py lines 72–88): `run_count += 1`, one of
`success_count`/`error_count` incremented, `last_run_time = start_time`,
`last_result = result[:500]`, and `next_run_time` replaced by the
recomputed instant when `calculate_next_run_time` succeeded (`some v`)
and left unchanged when it raised (`none`; the exception is swallowed at
lines 86–87). -/
def updateTaskStats (task : TaskState) (success : Bool) (result : String)
    (start_time : ℤ) (nextRun? : Option ℤ) : TaskState :=
  { task with
    run_count := task.run_count + 1
    success_count := task.success_count + (if success then 1 else 0)
    error_count := task.error_count + (if success then 0 else 1)
    last_run_time := some start_time
    last_result := result.take 500
    next_run_time := nextRun?.getD task.next_run_time }

/-- The statistics update of `execute_task`'s exception handler
(task_executor.py lines 121–125). -/
def handlerTaskUpdate (task : TaskState) (start_time : ℤ) (error_msg : String) :
    TaskState :=
  { task with
    run_count := task.run_count + 1
    error_count := task.error_count + 1
    last_run_time := some start_time
    last_result := error_msg.take 500 }

/-- The `TaskExecutionLog` fields `execute_task` writes. -/
structure ExecLogState where
  status : String
  result_message : Option String
  error_details : Option String
  deriving DecidableEq, Repr

/-- Which operations on `execute_task`'s path raise, and with what message. -/
structure ExecEnv where
  /-- exception from the ExecutionLog creation/commit (lines 38–44) -/
  createLogRaise : Option String
  /-- result of the per-kind dispatch (line 52): `.error` = it raised -/
  dispatchOutcome : Except String (Bool × String)
  /-- result of `calculate_next_run_time` (line 84): `none` = it raised -/
  nextRunResult : Option ℤ
  /-- exception from the result-recording commit (line 89) -/
  updateCommitRaise : Option String
  /-- exception from the handler's own commit (line 127) -/
  handlerCommitRaise : Option String

/-- Observable outcome of one `execute_task` call: the returned pair (or
the exception that escaped), the task and log state left behind, the
scheduler's running set after the `finally` block, and the value of the
running set at the moment the per-kind executor was dispatched (`none`
when the dispatch was never reached). -/
structure ExecView where
  result : Except String (Bool × String)
  task : TaskState
  log : ExecLogState
  running : Finset ℕ
  runningAtDispatch : Option (Finset ℕ)

/-- The `except Exception` handler of `execute_task` (task_executor.py
lines 93–129) followed by the `finally` block (lines 131–134): records a
failed log and task update, commits (which may itself raise, in which case
the exception escapes after the `finally` still removed the task id), and
otherwise returns `(False, error_msg)`. -/
def executeTaskHandler (env : ExecEnv) (task : TaskState) (start_time : ℤ)
    (e : String) (running : Finset ℕ) (atDispatch : Option (Finset ℕ)) : ExecView :=
  let error_msg := "任务执行异常: " ++ e
  let task1 := handlerTaskUpdate task start_time error_msg
  let log1 : ExecLogState :=
    { status := "failed", result_message := some error_msg, error_details := some e }
  match env.handlerCommitRaise with
  | some e2 =>
      { result := .error e2, task := task1, log := log1,
        running := running.erase task.id, runningAtDispatch := atDispatch }
  | none =>
      { result := .ok (false, error_msg), task := task1, log := log1,
        running := running.erase task.id, runningAtDispatch := atDispatch }

/-- `execute_task` (task_executor.py lines 20–134): create the running
ExecutionLog, insert the task id into the scheduler's running set, dispatch
by task type (`github_oauth_login` to the per-kind executor, unknown types
to a failure result), record the outcome and update statistics, recompute
`next_run_time`, and commit; any exception raised on that path goes to
`executeTaskHandler`; the `finally` block removes the task id from the
running set on every path. -/
def execute_task (env : ExecEnv) (task : TaskState) (start_time : ℤ)
    (running : Finset ℕ) : ExecView :=
  match env.createLogRaise with
  | some e =>
      -- raised before `mark_task_running`; the handler still runs and the
      -- `finally` block's discard is a no-op-or-erase on the original set
      executeTaskHandler env task start_time e running none
  | none =>
    let running1 := insert task.id running
    let dispatch :=
      if task.task_type == "github_oauth_login" then env.dispatchOutcome
      else Except.ok (false, "未知的任务类型: " ++ task.task_type)
    match dispatch with
    | .error e => executeTaskHandler env task start_time e running1 (some running1)
    | .ok (success, result) =>
      let log1 : ExecLogState :=
        { status := if success then "success" else "failed"
          result_message := some result
          error_details := if success then none else some result }
      let task1 := updateTaskStats task success result start_time env.nextRunResult
      match env.updateCommitRaise with
      | some e =>
          -- the ORM objects keep the in-memory mutations, so the handler
          -- updates `task1`/overwrites the log before its own commit
          executeTaskHandler env task1 start_time e running1 (some running1)
      | none =>
          { result := .ok (success, result), task := task1, log := log1,
            running := running1.erase task.id, runningAtDispatch := some running1 }

/-- The aggregation of `execute_github_oauth_task` over the per-account
login outcomes (task_executor.py lines 158–159, 234–235 and 337–340): no
valid account yields failure, otherwise overall success iff the count of
successful accounts is positive. -/
def execute_github_oauth_outcome (accountSuccesses : List Bool) : Bool :=
  if accountSuccesses.isEmpty then false
  else 0 < accountSuccesses.countP (· = true)

/-- Modelled from the spec: the Cron Evaluator's next-instant computation
is delegated to the external `croniter` library (task_scheduler.py line
38), which is not part of this repository's source.  For the every-minute
expression `*/1 * * * *` used by the spec's end-to-end scenario, the next
scheduled instant after time `t` (UTC seconds) is the next minute boundary
strictly after `t`. -/
def cronNextEveryMinute (t : ℕ) : ℕ := (t / 60 + 1) * 60

theorem cronNextEveryMinute_gt (t : ℕ) : t < cronNextEveryMinute t := by
  have h := Nat.div_add_mod t 60
  have h2 : t % 60 < 60 := Nat.mod_lt _ (by norm_num)
  unfold cronNextEveryMinute
  omega

/-! ## Balance Extractor (`backend/utils/balance_extractor.py`).

The amount regex

`(?P<prefix_code>USD|CNY|EUR|GBP)?\s*(?P<symbol>US\$|CN¥|[$¥€£￥＄])?\s*`
`(?P<value>-?\d{1,3}(?:,\d{3})*(?:\.\d{1,4})?)\s*(?P<suffix_code>USD|CNY|EUR|GBP)?`

with `re.IGNORECASE`, and the keyword-window regex
`(.{0,160}(?:当前余额|账户余额|可用余额|current balance|available balance|wallet).{0,160})`
with `re.IGNORECASE | re.DOTALL`, are embedded as explicit matchers over
`List Char` with Python's leftmost/greedy/non-overlapping `finditer`
semantics (the only backtracking those patterns can need is on the two
optional currency groups).  `\d` is modelled as an ASCII digit and amounts
as exact rationals. -/

/-- ASCII upper-casing of one character (Python `str.upper` on the
alphabets these strings use). -/
def ucChar (c : Char) : Char :=
  if 'a' ≤ c ∧ c ≤ 'z' then Char.ofNat (c.toNat - 32) else c

/-- Python `s.upper()`. -/
def upperStr (s : String) : String := ⟨s.data.map ucChar⟩

/-- `CURRENCY_SYMBOL_MAP` (balance_extractor.py lines 12–21). -/
def CURRENCY_SYMBOL_MAP : List (String × String) :=
  [("$", "USD"), ("＄", "USD"), ("US$", "USD"), ("CN¥", "CNY"),
   ("¥", "CNY"), ("￥", "CNY"), ("€", "EUR"), ("£", "GBP")]

/-- `CURRENCY_CODES` (balance_extractor.py line 23). -/
def CURRENCY_CODES : List String := ["USD", "CNY", "EUR", "GBP"]

/-- Dictionary lookup in `CURRENCY_SYMBOL_MAP`. -/
def symbolMapLookup (s : String) : Option String :=
  (CURRENCY_SYMBOL_MAP.find? fun p => p.1 == s).map (·.2)

/-- Case-insensitive literal prefix match; returns the matched original
characters and the remainder. -/
def matchCIPrefix : List Char → List Char → Option (List Char × List Char)
  | [], cs => some ([], cs)
  | _ :: _, [] => none
  | p :: ps, c :: cs =>
      if lcChar p == lcChar c then
        (matchCIPrefix ps cs).map fun m => (c :: m.1, m.2)
      else
        none

/-- The ordered, case-insensitive alternation `USD|CNY|EUR|GBP` of the
`prefix_code`/`suffix_code` groups. -/
def tryCodeCL (cs : List Char) : Option (List Char × List Char) :=
  match matchCIPrefix "USD".data cs with
  | some r => some r
  | none =>
  match matchCIPrefix "CNY".data cs with
  | some r => some r
  | none =>
  match matchCIPrefix "EUR".data cs with
  | some r => some r
  | none => matchCIPrefix "GBP".data cs

/-- The character class `[$¥€£￥＄]` of the `symbol` group. -/
def symbolClass : List Char := ['$', '¥', '€', '£', '￥', '＄']

/-- The ordered alternation `US\$|CN¥|[$¥€£￥＄]` of the `symbol` group. -/
def trySymbolCL (cs : List Char) : Option (List Char × List Char) :=
  match matchCIPrefix "US$".data cs with
  | some r => some r
  | none =>
  match matchCIPrefix "CN¥".data cs with
  | some r => some r
  | none =>
  match cs with
  | c :: rest => if symbolClass.contains c then some ([c], rest) else none
  | [] => none

/-- Split off the maximal run of whitespace (`\s*`). -/
def spanWs (cs : List Char) : List Char × List Char :=
  (cs.takeWhile isSpaceChar, cs.dropWhile isSpaceChar)

/-- Split off at most `bound` leading ASCII digits (`\d{1,bound}` greedy,
possibly zero). -/
def takeDigits : ℕ → List Char → List Char × List Char
  | 0, cs => ([], cs)
  | _ + 1, [] => ([], [])
  | bound + 1, c :: cs =>
      if c.isDigit then
        let r := takeDigits bound cs
        (c :: r.1, r.2)
      else
        ([], c :: cs)

/-- The greedy `(?:,\d{3})*` thousands groups: repeatedly consume a comma
followed by exactly three digits. -/
def thousandsGroups : List Char → List Char × List Char
  | ',' :: a :: b :: c :: rest =>
      if a.isDigit && b.isDigit && c.isDigit then
        let r := thousandsGroups rest
        (',' :: a :: b :: c :: r.1, r.2)
      else
        ([], ',' :: a :: b :: c :: rest)
  | cs => ([], cs)

/-- The optional greedy `(?:\.\d{1,4})?` fractional part. -/
def fracPart : List Char → List Char × List Char
  | '.' :: c :: rest =>
      if c.isDigit then
        let r := takeDigits 3 rest
        ('.' :: c :: r.1, r.2)
      else
        ([], '.' :: c :: rest)
  | cs => ([], cs)

/-- Decimal digits to a natural number. -/
def digitsToNat (ds : List Char) : ℕ :=
  ds.foldl (fun n c => n * 10 + (c.toNat - '0'.toNat)) 0

/-- The mandatory `value` group `-?\d{1,3}(?:,\d{3})*(?:\.\d{1,4})?`,
returning the matched characters, the parsed amount (Python
`float(value.replace(',', ''))`, modelled exactly in `ℚ`), and the rest. -/
def matchValueCL (cs : List Char) : Option (List Char × ℚ × List Char) :=
  let neg : List Char × List Char :=
    match cs with
    | '-' :: rest => (['-'], rest)
    | _ => ([], cs)
  let d1 := takeDigits 3 neg.2
  if d1.1.isEmpty then
    none
  else
    let grp := thousandsGroups d1.2
    let frac := fracPart grp.2
    let chars := neg.1 ++ d1.1 ++ grp.1 ++ frac.1
    let intDigits := (d1.1 ++ grp.1).filter (·.isDigit)
    let fracDigits := frac.1.filter (·.isDigit)
    let base : ℤ :=
      (digitsToNat intDigits : ℤ) * (10 : ℤ) ^ fracDigits.length + (digitsToNat fracDigits : ℤ)
    let signed : ℤ := if neg.1.isEmpty then base else -base
    some (chars, mkRat signed ((10 : ℕ) ^ fracDigits.length), frac.2)

/-- One extracted amount candidate
(`BalanceExtractor._extract_amount_candidates` entries). -/
structure AmountCandidate where
  value : ℚ
  currency : Option String
  raw : String
  has_explicit_currency : Bool
  deriving DecidableEq, Repr

/-- `BalanceExtractor._determine_currency` (balance_extractor.py lines
367–387): prefix code upper-cased, then suffix code, then the stripped
symbol via `CURRENCY_SYMBOL_MAP` (directly, then upper-cased). -/
def determine_currency (symbol : Option String) (prefix_code suffix_code : Option String) :
    Option String :=
  let fromCode : Option String → Option String := fun oc =>
    oc.bind fun c =>
      if CURRENCY_CODES.contains (upperStr c) then some (upperStr c) else none
  match fromCode prefix_code with
  | some c => some c
  | none =>
  match fromCode suffix_code with
  | some c => some c
  | none =>
      symbol.bind fun sy =>
        let normalized := stripStr sy
        match symbolMapLookup normalized with
        | some cur => some cur
        | none => symbolMapLookup (upperStr normalized)

/-- The part of one amount match after the two optional leading groups:
`\s*` value `\s*` suffix-code, assembling the candidate.  `pre`/`symChars`
are the matched texts of the `prefix_code`/`symbol` groups (`none` =
group empty), `ws1` the whitespace between them. -/
def matchAmountFromSymbol (pre : Option (List Char)) (ws1 : List Char)
    (symChars : Option (List Char)) (cs : List Char) :
    Option (AmountCandidate × List Char) :=
  let s2 := spanWs cs
  match matchValueCL s2.2 with
  | none => none
  | some (vchars, v, afterValue) =>
      let s3 := spanWs afterValue
      let suf : Option (List Char) × List Char :=
        match tryCodeCL s3.2 with
        | some (m, r) => (some m, r)
        | none => (none, s3.2)
      let span := pre.getD [] ++ ws1 ++ symChars.getD [] ++ s2.1 ++ vchars ++ s3.1 ++ suf.1.getD []
      let currency :=
        determine_currency (symChars.map (⟨·⟩)) (pre.map (⟨·⟩)) (suf.1.map (⟨·⟩))
      let cand : AmountCandidate :=
        { value := v
          currency := currency
          raw := ⟨stripCL span⟩
          has_explicit_currency :=
            symChars.isSome || pre.isSome || suf.1.isSome ||
              (currency.isSome && !(currency == some "USD")) }
      some (cand, suf.2)

/-- The amount match after the optional `prefix_code` group: greedy
optional `symbol` group with backtracking to the empty alternative. -/
def matchAmountAfterPrefix (pre : Option (List Char)) (cs : List Char) :
    Option (AmountCandidate × List Char) :=
  let s1 := spanWs cs
  match trySymbolCL s1.2 with
  | some (symChars, afterSym) =>
      match matchAmountFromSymbol pre s1.1 (some symChars) afterSym with
      | some r => some r
      | none => matchAmountFromSymbol pre s1.1 none s1.2
  | none => matchAmountFromSymbol pre s1.1 none s1.2

/-- Attempt the whole amount pattern at one position: greedy optional
`prefix_code` group with backtracking to the empty alternative. -/
def matchAmountAt (cs : List Char) : Option (AmountCandidate × List Char) :=
  match tryCodeCL cs with
  | some (preChars, afterPre) =>
      match matchAmountAfterPrefix (some preChars) afterPre with
      | some r => some r
      | none => matchAmountAfterPrefix none cs
  | none => matchAmountAfterPrefix none cs

/-- `re.finditer` of the amount pattern: leftmost, non-overlapping, one
position forward on failure.  `fuel` bounds the recursion (every step
consumes at least one character). -/
def findAmountsAux : ℕ → List Char → List AmountCandidate
  | 0, _ => []
  | _ + 1, [] => []
  | fuel + 1, c :: rest =>
      match matchAmountAt (c :: rest) with
      | some (cand, after) => cand :: findAmountsAux fuel after
      | none => findAmountsAux fuel rest

/-- `BalanceExtractor._extract_amount_candidates` (balance_extractor.py
lines 320–365): all regex matches, then candidates without a currency
default to USD with `has_explicit_currency = False`. -/
def extract_amount_candidates (text : String) : List AmountCandidate :=
  (findAmountsAux text.data.length text.data).map fun c =>
    if c.currency = none then
      { c with currency := some "USD", has_explicit_currency := false }
    else c

/-- `BalanceExtractor._parse_balance_text` (balance_extractor.py lines
302–318): first explicit-currency candidate, else the first candidate. -/
def parse_balance_text (text : String) : Option ℚ × Option String :=
  match extract_amount_candidates text with
  | [] => (none, none)
  | c :: cs =>
      match (c :: cs).find? (·.has_explicit_currency) with
      | some e => (some e.value, e.currency)
      | none => (some c.value, c.currency)

/-- The sort key of `_select_amount_candidate`'s `prefer_smaller` branch:
`key=lambda c: abs(c['value'])`. -/
def absLE (a b : AmountCandidate) : Prop := |a.value| ≤ |b.value|

instance : DecidableRel absLE :=
  fun a b => inferInstanceAs (Decidable (|a.value| ≤ |b.value|))

instance : IsTotal AmountCandidate absLE := ⟨fun _ _ => le_total _ _⟩

instance : IsTrans AmountCandidate absLE := ⟨fun _ _ _ => le_trans⟩

/-- The pool `_select_amount_candidate` chooses from
(balance_extractor.py lines 395–396): the explicit-currency candidates,
or all candidates when none is explicit. -/
def selectionPool (text : String) : List AmountCandidate :=
  let candidates := extract_amount_candidates text
  let explicit_candidates := candidates.filter (·.has_explicit_currency)
  if explicit_candidates.isEmpty then candidates else explicit_candidates

/-- `BalanceExtractor._select_amount_candidate` (balance_extractor.py
lines 389–401): the first candidate of the pool, after a stable sort by
`abs(value)` when `prefer_smaller` is set. -/
def select_amount_candidate (text : String) (prefer_smaller : Bool) :
    Option AmountCandidate :=
  if (extract_amount_candidates text).isEmpty then none
  else
    let pool := selectionPool text
    (if prefer_smaller then List.insertionSort absLE pool else pool).head?

/-- The keyword alternation of the context-window pattern
(balance_extractor.py lines 187–190). -/
def balanceKeywords : List String :=
  ["当前余额", "账户余额", "可用余额", "current balance", "available balance", "wallet"]

/-- If a balance keyword starts here (case-insensitively), its length. -/
def keywordLenAt (cs : List Char) : Option ℕ :=
  (balanceKeywords.find? fun k => (matchCIPrefix k.data cs).isSome).map String.length

/-- The greedy leading `.{0,160}`: the largest offset `k ≤ 160` at which a
keyword starts. -/
def largestKeywordOffset (cs : List Char) : Option ℕ :=
  (List.range 161).foldl
    (fun acc k => if (keywordLenAt (cs.drop k)).isSome then some k else acc) none

/-- One match of `(.{0,160}keyword.{0,160})` (DOTALL) at this position:
greedy window before the keyword, the keyword, greedy window after. -/
def sectionMatchAt (cs : List Char) : Option (List Char × List Char) :=
  match largestKeywordOffset cs with
  | none => none
  | some k =>
      match keywordLenAt (cs.drop k) with
      | none => none
      | some klen =>
          let total := k + klen + min 160 (cs.length - (k + klen))
          some (cs.take total, cs.drop total)

/-- `re.findall` of the context-window pattern: leftmost, non-overlapping. -/
def keywordSectionsAux : ℕ → List Char → List (List Char)
  | 0, _ => []
  | _ + 1, [] => []
  | fuel + 1, c :: rest =>
      match sectionMatchAt (c :: rest) with
      | some (sec, after) => sec :: keywordSectionsAux fuel after
      | none => keywordSectionsAux fuel rest

/-- The `keyword_sections` of `_extract_by_regex_patterns`
(balance_extractor.py lines 187–191). -/
def keywordSections (page_source : String) : List String :=
  (keywordSectionsAux page_source.data.length page_source.data).map (⟨·⟩)

/-- The successful payload of `_extract_by_regex_patterns`. -/
structure RegexExtraction where
  balance : ℚ
  currency : Option String
  raw_text : String
  extraction_method : String
  deriving DecidableEq, Repr

/-- The `for section in keyword_sections` loop (balance_extractor.py lines
193–206): the first section yielding a candidate wins. -/
def firstSectionCandidate : List String → Option AmountCandidate
  | [] => none
  | s :: rest =>
      match select_amount_candidate s false with
      | some c => some c
      | none => firstSectionCandidate rest

/-- `BalanceExtractor._extract_by_regex_patterns` (balance_extractor.py
lines 179–227): contextual scan around balance keywords first, then the
global fallback with `prefer_smaller=True`. -/
def extract_by_regex_patterns (page_source : String) : Option RegexExtraction :=
  match firstSectionCandidate (keywordSections page_source) with
  | some c =>
      some { balance := c.value, currency := c.currency, raw_text := c.raw,
             extraction_method := "regex_with_context" }
  | none =>
      match select_amount_candidate page_source true with
      | some c =>
          some { balance := c.value, currency := c.currency, raw_text := c.raw,
                 extraction_method := "regex_fallback" }
      | none => none

/-- `\$\d` (and the `¥€£` analogues): a symbol immediately followed by a
digit occurs somewhere. -/
def hasSymDigit (sym : Char) : List Char → Bool
  | a :: b :: rest => (a == sym && b.isDigit) || hasSymDigit sym (b :: rest)
  | _ => false

/-- `re.search(r'\d+\.\d{1,2}', text)`: equivalently, some digit is
immediately followed by a dot and a digit. -/
def hasDigitDotDigit : List Char → Bool
  | a :: b :: c :: rest => (a.isDigit && b == '.' && c.isDigit) || hasDigitDotDigit (b :: c :: rest)
  | _ => false

/-- `BalanceExtractor._is_balance_text` (balance_extractor.py lines
282–300): empty or longer than 50 characters is rejected; otherwise one of
the monetary-shape patterns must occur (these searches are case-sensitive
in the source). -/
def is_balance_text (text : String) : Bool :=
  if text.data.isEmpty || text.length > 50 then false
  else
    hasSymDigit '$' text.data || hasSymDigit '¥' text.data ||
    hasSymDigit '€' text.data || hasSymDigit '£' text.data ||
    hasDigitDotDigit text.data ||
    strContains text "USD" || strContains text "CNY" ||
    strContains text "EUR" || strContains text "GBP"

/-- The element gate shared by the CSS-selector and full-text strategies
(balance_extractor.py lines 154–156 and 241–243):
`text = element.text.strip(); if text and self._is_balance_text(text)`. -/
def acceptsElementText (elementText : String) : Bool :=
  let text := stripStr elementText
  !(text.data.isEmpty) && is_balance_text text

/-- The Cron Evaluator for `*/1 * * * *` over integer UTC seconds (the
minute boundary strictly after `t`), lifted from `cronNextEveryMinute`. -/
def intCronNextMinute (t : ℤ) : ℤ := ((cronNextEveryMinute t.toNat : ℕ) : ℤ)

theorem intCronNextMinute_gt (t : ℤ) : t < intCronNextMinute t := by
  have h := cronNextEveryMinute_gt t.toNat
  have h2 : 0 < cronNextEveryMinute t.toNat := by
    unfold cronNextEveryMinute
    omega
  unfold intCronNextMinute
  omega

/-- The statistics update a completed `github_oauth_login` run performs:
the per-account outcomes are aggregated by `execute_github_oauth_outcome`
(task_executor.py lines 337–340) and fed into the statistics update of
`execute_task` (lines 72–88). -/
def oauthRunUpdate (task : TaskState) (accountSuccesses : List Bool)
    (result : String) (start_time : ℤ) (nextRun? : Option ℤ) : TaskState :=
  updateTaskStats task (execute_github_oauth_outcome accountSuccesses)
    result start_time nextRun?

end GithubLogin

namespace GithubLogin

/-! ## Claim theorems. -/

/-- C1: for every instant and tolerance, `is_time_to_run` is true exactly
when `now − next_run_time` lies in the closed interval `[−tol, 2·tol]`:
true at both boundaries (difference `−tol` and `2·tol`) and false
immediately outside them (difference `2·tol + 1` and `−tol − 1`).
The tolerance is a duration, hence non-negative. -/
theorem C1_is_time_to_run_window (now next tol : ℤ) (htol : 0 ≤ tol) :
    (is_time_to_run now next tol = true ↔ now - next ∈ Set.Icc (-tol) (2 * tol)) ∧
    is_time_to_run (next - tol) next tol = true ∧
    is_time_to_run (next + 2 * tol) next tol = true ∧
    is_time_to_run (next + 2 * tol + 1) next tol = false ∧
    is_time_to_run (next - tol - 1) next tol = false := by
  simp only [is_time_to_run, Set.mem_Icc, Bool.and_eq_true, decide_eq_true_eq,
    Bool.and_eq_false_iff, decide_eq_false_iff_not]
  refine ⟨by omega, by omega, by omega, by omega, by omega⟩

/-- C1 witness (default tolerance 30). -/
theorem C1_is_time_to_run_window_witness :
    (is_time_to_run 100 60 30 = true ↔ (100 : ℤ) - 60 ∈ Set.Icc (-30 : ℤ) (2 * 30)) ∧
    is_time_to_run (60 - 30) 60 30 = true ∧
    is_time_to_run (60 + 2 * 30) 60 30 = true ∧
    is_time_to_run (60 + 2 * 30 + 1) 60 30 = false ∧
    is_time_to_run (60 - 30 - 1) 60 30 = false :=
  C1_is_time_to_run_window 100 60 30 (by decide)

/-- C7 (counterexample): a task whose `next_run_time` is far in the past
is NOT reported due by `is_time_to_run` — with `next_run_time = 0`,
`now = 1000000` and the default tolerance 30, the due-check returns
false, refuting the claim that no upper bound on lateness prevents a
long-missed task from being picked up at this layer. -/
theorem C7_counterexample : is_time_to_run 1000000 0 30 = false := by decide

/-- C7 (amended): whenever `now − next_run_time` exceeds `2·tolerance`,
`is_time_to_run` returns false — the `2·tolerance` window does impose an
upper bound on lateness, so a long-missed task is not picked up by the
due-check itself. -/
theorem C7_overdue_not_due (now next tol : ℤ) (h : 2 * tol < now - next) :
    is_time_to_run now next tol = false := by
  simp only [is_time_to_run, Bool.and_eq_false_iff, decide_eq_false_iff_not]
  omega

/-- C7 witness. -/
theorem C7_overdue_not_due_witness :
    2 * 30 < (100000 : ℤ) - 40 ∧ is_time_to_run 100000 40 30 = false :=
  ⟨by decide, C7_overdue_not_due 100000 40 30 (by decide)⟩

/-- C10: `_is_balance_text` rejects every string longer than 50
characters, and the element gate of the structural and full-text
strategies (which applies `_is_balance_text` to the stripped visible
text) rejects every element whose stripped visible text exceeds 50
characters. -/
theorem C10_long_text_rejected (t raw : String)
    (ht : 50 < t.length) (hraw : 50 < (stripStr raw).length) :
    is_balance_text t = false ∧ acceptsElementText raw = false := by
  have hb : ∀ s : String, 50 < s.length → is_balance_text s = false := by
    intro s hs
    unfold is_balance_text
    have : (s.data.isEmpty || decide (s.length > 50)) = true := by
      simp [hs]
    simp [this]
  refine ⟨hb t ht, ?_⟩
  unfold acceptsElementText
  simp [hb _ hraw]

/-- Invariant of the retry loop: the accumulated backoff sleeps stay
strictly increasing, because each executed attempt appends
`sleepDuration attempt` and all earlier sleeps are smaller. -/
theorem retryLoopAux_sleeps_chain (outcome : ℕ → AttemptOutcome) (M : ℕ) (fuel : ℕ) :
    ∀ (attempt : ℕ) (lastErr : Option String) (sleeps : List ℕ),
      List.Chain' (· < ·) sleeps →
      (∀ x ∈ sleeps, x < sleepDuration attempt) →
      List.Chain' (· < ·) (retryLoopAux outcome M fuel attempt lastErr sleeps).sleeps := by
  induction fuel with
  | zero =>
      intro attempt lastErr sleeps hc _
      simpa [retryLoopAux, retryFinalFailure] using hc
  | succ n ih =>
      intro attempt lastErr sleeps hc hb
      have hchain : List.Chain' (· < ·)
          (if attempt > 0 then sleeps ++ [sleepDuration attempt] else sleeps) := by
        split
        · rw [List.chain'_append]
          refine ⟨hc, List.chain'_singleton _, ?_⟩
          intro x hx y hy
          simp only [List.head?_cons, Option.mem_def, Option.some.injEq] at hy
          subst hy
          exact hb x (List.mem_of_mem_getLast? hx)
        · exact hc
      have hbound : ∀ x ∈ (if attempt > 0 then sleeps ++ [sleepDuration attempt] else sleeps),
          x < sleepDuration (attempt + 1) := by
        have hstep : sleepDuration attempt < sleepDuration (attempt + 1) := by
          simp only [sleepDuration]
          omega
        intro x hx
        split at hx
        · rcases List.mem_append.mp hx with h | h
          · exact lt_trans (hb x h) hstep
          · simp only [List.mem_singleton] at h
            subst h
            exact hstep
        · exact lt_trans (hb x hx) hstep
      simp only [retryLoopAux]
      cases houtcome : outcome attempt with
      | success msg => simpa using hchain
      | failure msg =>
          dsimp only
          split
          · simpa [retryFinalFailure] using hchain
          · exact ih (attempt + 1) (some msg) _ hchain hbound
      | exc msg =>
          dsimp only
          split
          · simpa [retryFinalFailure] using hchain
          · exact ih (attempt + 1) (some msg) _ hchain hbound

/-- Every failure exit of the retry loop goes through the final-failure
return, which reports `retry_count = max_retries` and a classified
`error_type`. -/
theorem retryLoopAux_failure_data (outcome : ℕ → AttemptOutcome) (M : ℕ) (fuel : ℕ) :
    ∀ (attempt : ℕ) (lastErr : Option String) (sleeps : List ℕ),
      (retryLoopAux outcome M fuel attempt lastErr sleeps).succeeded = false →
      (retryLoopAux outcome M fuel attempt lastErr sleeps).retryCount = M ∧
      ∃ e, (retryLoopAux outcome M fuel attempt lastErr sleeps).errorType =
        some (determine_error_type e) := by
  induction fuel with
  | zero =>
      intro attempt lastErr sleeps _
      exact ⟨rfl, (lastErr.getD ""), rfl⟩
  | succ n ih =>
      intro attempt lastErr sleeps hfail
      simp only [retryLoopAux] at hfail ⊢
      cases houtcome : outcome attempt with
      | success msg =>
          rw [houtcome] at hfail
          simp at hfail
      | failure msg =>
          rw [houtcome] at hfail
          dsimp only at hfail ⊢
          by_cases hcond : should_retry_oauth_error msg = false ∨ attempt = M - 1
          · rw [if_pos hcond]
            exact ⟨rfl, msg, rfl⟩
          · rw [if_neg hcond]
            rw [if_neg hcond] at hfail
            exact ih (attempt + 1) (some msg) _ hfail
      | exc msg =>
          rw [houtcome] at hfail
          dsimp only at hfail ⊢
          by_cases hcond : attempt = M - 1
          · rw [if_pos hcond]
            exact ⟨rfl, msg, rfl⟩
          · rw [if_neg hcond]
            rw [if_neg hcond] at hfail
            exact ih (attempt + 1) (some msg) _ hfail

/-- C5: the retry wrapper makes exactly one attempt on a non-retryable
failure message; with every attempt failing retryably and
`max_retries = 3` it makes exactly 3 attempts with backoff sleeps
`[7, 9]`; and the per-attempt backoff `5 + 2·attempt` is strictly
increasing across successive attempts, so the performed sleeps are
always strictly increasing. -/
theorem C5_retry_attempts_and_backoff (outcome : ℕ → AttemptOutcome) (rc : ℕ)
    (m : String) (msgs : ℕ → String) :
    (outcome 0 = .failure m → should_retry_oauth_error m = false →
       (execute_oauth_with_retry outcome rc).attempts = 1) ∧
    ((∀ i, outcome i = .failure (msgs i)) →
     (∀ i, should_retry_oauth_error (msgs i) = true) →
       (execute_oauth_with_retry outcome 3).attempts = 3 ∧
       (execute_oauth_with_retry outcome 3).sleeps = [7, 9]) ∧
    List.Chain' (· < ·) (execute_oauth_with_retry outcome rc).sleeps ∧
    (∀ i j, i < j → sleepDuration i < sleepDuration j) := by
  refine ⟨?_, ?_, ?_, ?_⟩
  · intro h0 hnr
    obtain ⟨n, hn⟩ : ∃ n, max 1 rc = n + 1 := ⟨max 1 rc - 1, by omega⟩
    simp only [execute_oauth_with_retry, hn, retryLoopAux, h0, hnr]
    simp [retryFinalFailure]
  · intro hout hret
    have h0 := hout 0
    have h1 := hout 1
    have h2 := hout 2
    have r0 := hret 0
    have r1 := hret 1
    have r2 := hret 2
    constructor <;>
      simp [execute_oauth_with_retry, retryLoopAux, h0, h1, h2, r0, r1, r2,
        retryFinalFailure, sleepDuration]
  · exact retryLoopAux_sleeps_chain outcome (max 1 rc) (max 1 rc) 0 none []
      List.chain'_nil (by simp)
  · intro i j hij
    simp only [sleepDuration]
    omega

/-- C5 witness: a non-retryable message (the spec §8 "still on login
page" message) stops after one attempt; an all-retryable run with
`max_retries = 3` makes 3 attempts with sleeps 7 and 9. -/
theorem C5_retry_attempts_and_backoff_witness :
    (execute_oauth_with_retry (fun _ => .failure "GitHub登录失败，仍在登录页面") 3).attempts = 1 ∧
    (execute_oauth_with_retry (fun _ => .failure "网络超时") 3).attempts = 3 ∧
    (execute_oauth_with_retry (fun _ => .failure "网络超时") 3).sleeps = [7, 9] := by
  refine ⟨?_, ?_, ?_⟩
  · exact (C5_retry_attempts_and_backoff (fun _ => .failure "GitHub登录失败，仍在登录页面") 3
      "GitHub登录失败，仍在登录页面" (fun _ => "")).1 rfl (by decide)
  · exact ((C5_retry_attempts_and_backoff (fun _ => .failure "网络超时") 3
      "" (fun _ => "网络超时")).2.1 (fun _ => rfl) (fun _ => by decide)).1
  · exact ((C5_retry_attempts_and_backoff (fun _ => .failure "网络超时") 3
      "" (fun _ => "网络超时")).2.1 (fun _ => rfl) (fun _ => by decide)).2

/-- C6 (counterexample): with every attempt failing on the non-retryable
message `未找到GitHub用户名输入框` and `max_retries = 3`, exactly one
attempt is made, yet the failure data reports `retry_count = 3` — not the
number of attempts actually consumed (1). -/
theorem C6_counterexample :
    (execute_oauth_with_retry (fun _ => .failure "未找到GitHub用户名输入框") 3).attempts = 1 ∧
    (execute_oauth_with_retry (fun _ => .failure "未找到GitHub用户名输入框") 3).retryCount = 3 ∧
    (3 : ℕ) ≠ 1 := by
  decide

/-- C6 (amended): whenever the retry wrapper returns failure, the failure
data carries a classified error kind (`determine_error_type` of the last
error) and a `retry_count` equal to the configured maximum
`max(1, retry_count)` — regardless of how many attempts were actually
made. -/
theorem C6_failure_reports_max_retries (outcome : ℕ → AttemptOutcome) (rc : ℕ)
    (h : (execute_oauth_with_retry outcome rc).succeeded = false) :
    (execute_oauth_with_retry outcome rc).retryCount = max 1 rc ∧
    ∃ e, (execute_oauth_with_retry outcome rc).errorType =
      some (determine_error_type e) :=
  retryLoopAux_failure_data outcome (max 1 rc) (max 1 rc) 0 none [] h

/-- C6 witness. -/
theorem C6_failure_reports_max_retries_witness :
    (execute_oauth_with_retry (fun _ => .failure "OAuth窗口未打开") 2).retryCount = max 1 2 ∧
    ∃ e, (execute_oauth_with_retry (fun _ => .failure "OAuth窗口未打开") 2).errorType =
      some (determine_error_type e) :=
  C6_failure_reports_max_retries (fun _ => .failure "OAuth窗口未打开") 2 (by decide)

/-- C2: the RunningSet lifecycle and the pending-query exclusion.
(1) On every exit path of `execute_task` — normal success or failure,
exception caught by the handler, and even an exception escaping from the
handler's own commit — the `finally` block leaves the running set equal to
the initial set minus the task id.  (2) Whenever the per-kind executor is
dispatched, the task id is a member of the running set.  (3)
`get_pending_tasks` never returns a task whose id is currently in the
running set. -/
theorem C2_running_set_lifecycle :
    (∀ (env : ExecEnv) (task : TaskState) (st : ℤ) (running : Finset ℕ),
       (execute_task env task st running).running = running.erase task.id) ∧
    (∀ (env : ExecEnv) (task : TaskState) (st : ℤ) (running : Finset ℕ) (S : Finset ℕ),
       (execute_task env task st running).runningAtDispatch = some S → task.id ∈ S) ∧
    (∀ (running : Finset ℕ) (tasks : List SchedTask) (now tol : ℤ) (t : SchedTask),
       t ∈ get_pending_tasks running tasks now tol → t.id ∉ running) := by
  refine ⟨?_, ?_, ?_⟩
  · intro env task st running
    obtain ⟨clr, dout, nrr, ucr, hcr⟩ := env
    rcases clr with _ | e1 <;>
    rcases dout with e2 | ⟨succ, res⟩ <;>
    rcases ucr with _ | e3 <;>
    rcases hcr with _ | e4 <;>
    by_cases htt : (task.task_type == "github_oauth_login") = true <;>
    simp [execute_task, executeTaskHandler, htt, updateTaskStats, handlerTaskUpdate,
      Finset.erase_insert_eq_erase]
  · intro env task st running S h
    obtain ⟨clr, dout, nrr, ucr, hcr⟩ := env
    rcases clr with _ | e1 <;>
    rcases dout with e2 | ⟨succ, res⟩ <;>
    rcases ucr with _ | e3 <;>
    rcases hcr with _ | e4 <;>
    by_cases htt : (task.task_type == "github_oauth_login") = true <;>
    · simp [execute_task, executeTaskHandler, htt, updateTaskStats, handlerTaskUpdate] at h
      all_goals
        rw [← h]
        exact Finset.mem_insert_self _ _
  · intro running tasks now tol t ht
    unfold get_pending_tasks at ht
    have h2 := (List.mem_filter.mp ht).2
    simp only [Bool.and_eq_true, Bool.not_eq_true'] at h2
    intro hmem
    rw [decide_eq_true hmem] at h2
    exact absurd h2.1 (by decide)

/-- C2 witness: at a concrete environment the dispatch-time set contains
the task id, and a concrete pending query excludes a running id. -/
theorem C2_running_set_lifecycle_witness :
    (7 : ℕ) ∈ insert (7 : ℕ) (∅ : Finset ℕ) ∧
    (⟨5, true, 100⟩ : SchedTask).id ∉ (∅ : Finset ℕ) := by
  constructor
  · exact C2_running_set_lifecycle.2.1
      ⟨none, .ok (true, "ok"), some 120, none, none⟩
      ⟨7, "github_oauth_login", 0, 0, 0, none, "", 60⟩ 90 ∅
      (insert 7 ∅) (by decide)
  · exact C2_running_set_lifecycle.2.2 ∅ [⟨5, true, 100⟩] 100 30
      ⟨5, true, 100⟩ (by decide)

/-- C3 (counterexample): when the dispatched executor raises and the
exception handler's own `db_session.commit()` (task_executor.py line 127)
also raises, `execute_task` propagates the exception to its caller
instead of returning a `(False, message)` pair. -/
theorem C3_counterexample :
    (execute_task ⟨none, .error "模拟异常", none, none, some "数据库不可用"⟩
        ⟨1, "github_oauth_login", 0, 0, 0, none, "", 0⟩ 0 ∅).result =
      Except.error "数据库不可用" := by
  rfl

/-- C3 (amended): provided the failure-recording commit inside the
exception handler does not itself raise, `execute_task` never propagates:
it returns an `Except.ok` pair on every path, and whenever the returned
flag is `false` the ExecutionLog it leaves behind has status `failed`. -/
theorem C3_never_throws (env : ExecEnv) (task : TaskState) (st : ℤ)
    (running : Finset ℕ) (h : env.handlerCommitRaise = none) :
    ∃ b m, (execute_task env task st running).result = Except.ok (b, m) ∧
      (b = false → (execute_task env task st running).log.status = "failed") := by
  obtain ⟨clr, dout, nrr, ucr, hcr⟩ := env
  dsimp only at h
  subst h
  rcases clr with _ | e1 <;>
  rcases dout with e2 | ⟨succ, res⟩ <;>
  rcases ucr with _ | e3 <;>
  by_cases htt : (task.task_type == "github_oauth_login") = true <;>
  · simp only [execute_task, executeTaskHandler]
    first
      | rw [if_pos htt]
      | rw [if_neg htt]
      | skip
    refine ⟨_, _, rfl, fun hb => ?_⟩
    simp_all

/-- C3 witness: a run whose executor raised but whose handler commit
succeeded returns `(False, …)` with a failed log. -/
theorem C3_never_throws_witness :
    ∃ b m,
      (execute_task ⟨none, .error "浏览器崩溃", none, none, none⟩
          ⟨2, "github_oauth_login", 1, 1, 0, none, "", 60⟩ 30 ∅).result = Except.ok (b, m) ∧
      (b = false →
        (execute_task ⟨none, .error "浏览器崩溃", none, none, none⟩
            ⟨2, "github_oauth_login", 1, 1, 0, none, "", 60⟩ 30 ∅).log.status = "failed") :=
  C3_never_throws ⟨none, .error "浏览器崩溃", none, none, none⟩
    ⟨2, "github_oauth_login", 1, 1, 0, none, "", 60⟩ 30 ∅ rfl

/-- C4 (counterexample): a task due at the early boundary of the
tolerance window (`next_run_time = 120`, picked up at `now = 90` with
tolerance 30, `is_time_to_run` true) completes a successful oauth run,
and the Cron Evaluator for `*/1 * * * *` recomputes `next_run_time` at 90
to the same instant 120 — NOT strictly greater than its previous value. -/
theorem C4_counterexample :
    is_time_to_run 90 120 30 = true ∧
    (oauthRunUpdate ⟨1, "github_oauth_login", 4, 3, 1, none, "", 120⟩ [true] "ok" 90
        (some (intCronNextMinute 90))).next_run_time = 120 ∧
    ¬ ((120 : ℤ) <
        (oauthRunUpdate ⟨1, "github_oauth_login", 4, 3, 1, none, "", 120⟩ [true] "ok" 90
          (some (intCronNextMinute 90))).next_run_time) := by
  refine ⟨by decide, by decide, by decide⟩

/-- C4 (amended): for a completed `github_oauth_login` run, the overall
result is success iff at least one account succeeded; `run_count`
increases by exactly 1, `success_count` or `error_count` by exactly 1
according to the outcome; `last_result` holds the truncated result
message and `last_run_time` the start time; and `next_run_time` is
recomputed to the Cron Evaluator's next instant strictly after the
completion time — strictly greater than its previous value whenever the
previous `next_run_time` did not lie in the future (it can be equal when
the task was picked up early inside the tolerance window). -/
theorem C4_oauth_run_update (accountSuccesses : List Bool) (task : TaskState)
    (result : String) (start_time endT : ℤ) (cronNext : ℤ → ℤ)
    (hcron : ∀ t, t < cronNext t) (hdue : task.next_run_time ≤ endT) :
    (execute_github_oauth_outcome accountSuccesses = true ↔
       ∃ r ∈ accountSuccesses, r = true) ∧
    (oauthRunUpdate task accountSuccesses result start_time (some (cronNext endT))).run_count
      = task.run_count + 1 ∧
    (execute_github_oauth_outcome accountSuccesses = true →
      (oauthRunUpdate task accountSuccesses result start_time (some (cronNext endT))).success_count
          = task.success_count + 1 ∧
      (oauthRunUpdate task accountSuccesses result start_time (some (cronNext endT))).error_count
          = task.error_count) ∧
    (execute_github_oauth_outcome accountSuccesses = false →
      (oauthRunUpdate task accountSuccesses result start_time (some (cronNext endT))).error_count
          = task.error_count + 1 ∧
      (oauthRunUpdate task accountSuccesses result start_time (some (cronNext endT))).success_count
          = task.success_count) ∧
    (oauthRunUpdate task accountSuccesses result start_time (some (cronNext endT))).last_result
      = result.take 500 ∧
    (oauthRunUpdate task accountSuccesses result start_time (some (cronNext endT))).last_run_time
      = some start_time ∧
    endT < (oauthRunUpdate task accountSuccesses result start_time (some (cronNext endT))).next_run_time ∧
    task.next_run_time
      < (oauthRunUpdate task accountSuccesses result start_time (some (cronNext endT))).next_run_time := by
  have hnext :
      (oauthRunUpdate task accountSuccesses result start_time (some (cronNext endT))).next_run_time
        = cronNext endT := by
    simp [oauthRunUpdate, updateTaskStats]
  refine ⟨?_, by simp [oauthRunUpdate, updateTaskStats], ?_, ?_,
    by simp [oauthRunUpdate, updateTaskStats], by simp [oauthRunUpdate, updateTaskStats], ?_, ?_⟩
  · unfold execute_github_oauth_outcome
    rcases accountSuccesses with _ | ⟨a, rest⟩
    · simp
    · simp [List.countP_pos_iff]
  · intro hs
    simp [oauthRunUpdate, updateTaskStats, hs]
  · intro hs
    simp [oauthRunUpdate, updateTaskStats, hs]
  · rw [hnext]
    exact hcron endT
  · rw [hnext]
    exact lt_of_le_of_lt hdue (hcron endT)

/-- C4 witness: one succeeding account at completion time 100 for a task
whose previous `next_run_time` 60 has passed. -/
theorem C4_oauth_run_update_witness :
    (execute_github_oauth_outcome [true, false] = true ↔
       ∃ r ∈ [true, false], r = true) ∧
    (oauthRunUpdate ⟨1, "github_oauth_login", 4, 3, 1, none, "", 60⟩ [true, false] "done" 90
        (some (intCronNextMinute 100))).run_count = 4 + 1 ∧
    (60 : ℤ) < (oauthRunUpdate ⟨1, "github_oauth_login", 4, 3, 1, none, "", 60⟩ [true, false]
        "done" 90 (some (intCronNextMinute 100))).next_run_time := by
  have h := C4_oauth_run_update [true, false]
    ⟨1, "github_oauth_login", 4, 3, 1, none, "", 60⟩ "done" 90 100
    intCronNextMinute intCronNextMinute_gt (by decide)
  exact ⟨h.1, h.2.1, h.2.2.2.2.2.2.2⟩

/-- The head of an `absLE` insertion sort is a member of minimal absolute
value. -/
theorem head_insertionSort_min (l : List AmountCandidate) (c : AmountCandidate)
    (h : (List.insertionSort absLE l).head? = some c) :
    c ∈ l ∧ ∀ x ∈ l, |c.value| ≤ |x.value| := by
  have hperm := List.perm_insertionSort absLE l
  have hsorted := List.sorted_insertionSort absLE l
  cases hs : List.insertionSort absLE l with
  | nil =>
      rw [hs] at h
      exact absurd h (by simp)
  | cons a t =>
      rw [hs] at h
      simp only [List.head?_cons, Option.some.injEq] at h
      rw [hs] at hperm hsorted
      subst h
      constructor
      · exact hperm.mem_iff.mp (List.mem_cons_self a t)
      · intro x hx
        have hx2 : x ∈ a :: t := hperm.mem_iff.mpr hx
        rcases List.mem_cons.mp hx2 with heq | hxt
        · rw [heq]
        · exact (List.pairwise_cons.mp hsorted).1 x hxt

/-- C8 (counterexample): on page source `$0.05 $57.10` with no balance
keyword, the global fallback returns 0.05 — an amount outside the claimed
plausibility range `[0.1, 1000]` — even though 57.10 lies inside that
range, refuting the claim that the smallest plausible amount in
`[0.1, 1000]` is preferred. -/
theorem C8_counterexample :
    extract_by_regex_patterns "$0.05 $57.10" =
      some { balance := mkRat 1 20, currency := some "USD", raw_text := "$0.05",
             extraction_method := "regex_fallback" } ∧
    mkRat 1 20 = (5 : ℚ)/100 ∧
    ¬ ((1 : ℚ)/10 ≤ (5 : ℚ)/100) ∧
    ((1 : ℚ)/10 ≤ 571/10 ∧ (571 : ℚ)/10 ≤ 1000) := by
  refine ⟨by decide, by norm_num [Rat.mkRat_eq_div], by norm_num, by norm_num, by norm_num⟩

/-- C8 (amended): the global fallback scan selects by amount magnitude
alone — whenever it returns a candidate, that candidate belongs to the
selection pool (explicit-currency candidates, or all candidates when none
is explicit) and has minimal absolute value in that pool; no plausibility
range `[0.1, 1000]` is applied. -/
theorem C8_fallback_min_abs (text : String) (c : AmountCandidate)
    (h : select_amount_candidate text true = some c) :
    c ∈ selectionPool text ∧ ∀ x ∈ selectionPool text, |c.value| ≤ |x.value| := by
  unfold select_amount_candidate at h
  by_cases he : (extract_amount_candidates text).isEmpty = true
  · rw [if_pos he] at h
    exact absurd h (by simp)
  · rw [if_neg he] at h
    simp only [if_true] at h
    exact head_insertionSort_min _ c h

/-- C8 witness. -/
theorem C8_fallback_min_abs_witness :
    (⟨mkRat 3 1, some "CNY", "¥3", true⟩ : AmountCandidate) ∈ selectionPool "¥5 ¥3" ∧
    ∀ x ∈ selectionPool "¥5 ¥3",
      |(⟨mkRat 3 1, some "CNY", "¥3", true⟩ : AmountCandidate).value| ≤ |x.value| :=
  C8_fallback_min_abs "¥5 ¥3" ⟨mkRat 3 1, some "CNY", "¥3", true⟩ (by decide)

/-- C9 (counterexample): on compact markup where `history: $500` precedes
`current balance: $12.30` within the 160-character context window, the
regex strategy returns 500 (the first amount of the labeled window in
document order), not 12.30 — refuting the claimed round-trip. -/
theorem C9_counterexample :
    extract_by_regex_patterns "history: $500 current balance: $12.30" =
      some { balance := mkRat 500 1, currency := some "USD", raw_text := "$500",
             extraction_method := "regex_with_context" } ∧
    mkRat 500 1 = (500 : ℚ) ∧
    (500 : ℚ) ≠ 123/10 := by
  refine ⟨by decide, by norm_num [Rat.mkRat_eq_div], by norm_num⟩

/-- C9 (amended): markup containing `Current balance` near `$57.10`
yields `(57.10, USD)` from the labeled context; markup with only `¥60.86`
and no label yields `(60.86, CNY)` from the global fallback; but compact
markup with `history: $500` before `current balance: $12.30` (both inside
one 160-character context window) yields `(500, USD)`, not 12.30. -/
theorem C9_extraction_scenarios :
    extract_by_regex_patterns "Current balance: $57.10" =
      some { balance := mkRat 5710 100, currency := some "USD", raw_text := "$57.10",
             extraction_method := "regex_with_context" } ∧
    mkRat 5710 100 = (5710 : ℚ)/100 ∧
    extract_by_regex_patterns "¥60.86" =
      some { balance := mkRat 6086 100, currency := some "CNY", raw_text := "¥60.86",
             extraction_method := "regex_fallback" } ∧
    mkRat 6086 100 = (6086 : ℚ)/100 ∧
    extract_by_regex_patterns "history: $500 current balance: $12.30" =
      some { balance := mkRat 500 1, currency := some "USD", raw_text := "$500",
             extraction_method := "regex_with_context" } := by
  refine ⟨by decide, by norm_num [Rat.mkRat_eq_div], by decide,
    by norm_num [Rat.mkRat_eq_div], by decide⟩

/-- C10 witness. -/
theorem C10_long_text_rejected_witness :
    50 < ("aaaaaaaaaaaaaaaaaaaaaaaaaaaaaaaaaaaaaaaaaaaaaaaaaaa" : String).length ∧
    50 < (stripStr "aaaaaaaaaaaaaaaaaaaaaaaaaaaaaaaaaaaaaaaaaaaaaaaaaaa").length ∧
    is_balance_text "aaaaaaaaaaaaaaaaaaaaaaaaaaaaaaaaaaaaaaaaaaaaaaaaaaa" = false ∧
    acceptsElementText "aaaaaaaaaaaaaaaaaaaaaaaaaaaaaaaaaaaaaaaaaaaaaaaaaaa" = false := by
  have h := C10_long_text_rejected
    "aaaaaaaaaaaaaaaaaaaaaaaaaaaaaaaaaaaaaaaaaaaaaaaaaaa"
    "aaaaaaaaaaaaaaaaaaaaaaaaaaaaaaaaaaaaaaaaaaaaaaaaaaa"
    (by decide) (by decide)
  exact ⟨by decide, by decide, h.1, h.2⟩

end GithubLogin
